import Mathlib

/-!
Verification of the Service Renewal Scheduling & Urgency Engine of the
pestcontrol backend (`core/services.py`, `core/models.py`, `core/views.py`).

The embedding is shallow and sequential: Django model rows become Lean
structures, the database becomes explicit lists of rows, timestamps become
integers (seconds), and `DateField` values become a calendar-date structure
with the same month arithmetic as `dateutil.relativedelta` (day-of-month
clamped to the target month's length).  `timezone.now()` is passed in
explicitly as a `now : Int` parameter, so each service call is evaluated at
one fixed instant, exactly as one request-scoped call is.
-/

namespace PestControl

/-- Calendar date, mirroring Python `datetime.date`. -/
structure Date where
  year : Nat
  month : Nat
  day : Nat
deriving DecidableEq, Repr

/-- Gregorian leap-year rule (as in Python's `calendar`/`datetime`). -/
def isLeapYear (y : Nat) : Bool :=
  (y % 4 == 0 && y % 100 != 0) || (y % 400 == 0)

/-- Number of days in a given month of a given year. -/
def daysInMonth (y m : Nat) : Nat :=
  if m == 2 then (if isLeapYear y then 29 else 28)
  else if m == 4 || m == 6 || m == 9 || m == 11 then 30
  else 31

/-- Days in the months strictly before month `m` of year `y`. -/
def daysBeforeMonth (y m : Nat) : Nat :=
  let base := [0, 31, 59, 90, 120, 151, 181, 212, 243, 273, 304, 334].getD (m - 1) 0
  base + (if 2 < m && isLeapYear y then 1 else 0)

/-- Day count of a date from a fixed epoch (proleptic Gregorian, day 0 =
0001-01-01), the usual `365 y + y/4 - y/100 + y/400` formula used by
`datetime.date.toordinal`. -/
def Date.dayNumber (d : Date) : Nat :=
  let y := d.year - 1
  365 * y + y / 4 - y / 100 + y / 400 + daysBeforeMonth d.year d.month + (d.day - 1)

/-- Timestamp (seconds) of midnight of a date: embeds
`timezone.make_aware(datetime.combine(d, datetime.min.time()))`.  The fixed
local-timezone offset is a constant shared by every timestamp in the model,
so it is dropped. -/
def midnightTs (d : Date) : Int :=
  (d.dayNumber : Int) * 86400

/-- `dateutil.relativedelta(months=k)` addition: advance the month index and
clamp the day of month to the target month's length. -/
def addMonths (d : Date) (k : Nat) : Date :=
  let t := d.year * 12 + (d.month - 1) + k
  let y := t / 12
  let m := t % 12 + 1
  { year := y, month := m, day := min d.day (daysInMonth y m) }

/-- `d - timedelta(days=1)`: the previous calendar day. -/
def predDay (d : Date) : Date :=
  if 1 < d.day then { d with day := d.day - 1 }
  else if 1 < d.month then
    { year := d.year, month := d.month - 1, day := daysInMonth d.year (d.month - 1) }
  else
    { year := d.year - 1, month := 12, day := 31 }

/-- `Renewal.RenewalStatus` text choices. -/
inductive RenewalStatus where
  | due
  | completed
deriving DecidableEq, Repr

/-- `Renewal.RenewalType` text choices. -/
inductive RenewalType where
  | contract_renewal
  | monthly_reminder
deriving DecidableEq, Repr

/-- `Renewal.UrgencyLevel` text choices. -/
inductive UrgencyLevel where
  | high
  | medium
  | normal
deriving DecidableEq, Repr

/-- `JobCard.JobType` text choices. -/
inductive JobType where
  | customer
  | society
deriving DecidableEq, Repr

/-- A `Renewal` row.  `due_date` is a timestamp (seconds); `jobcardId` is the
foreign key to the owning `JobCard` row. -/
structure Renewal where
  id : Nat
  jobcardId : Nat
  due_date : Int
  status : RenewalStatus
  renewal_type : RenewalType
  urgency_level : UrgencyLevel
  remarks : String
deriving DecidableEq, Repr

/-- A `JobCard` row, restricted to the fields the renewal engine reads.
`contract_duration` holds the parsed months of the `'3' | '6' | '12'` choice
string (`int(jobcard.contract_duration)` in the source); `client_full_name`
denormalizes `jobcard.client.full_name`, which the generator reads only to
build remark strings. -/
structure JobCard where
  id : Nat
  client_full_name : String
  job_type : JobType
  contract_duration : Option Nat
  schedule_date : Date
  next_service_date : Option Date
  is_paused : Bool
deriving DecidableEq, Repr

/-- `Renewal.update_urgency_level` (models.py): the pure three-way
classification of a due timestamp against `now`; `timedelta(days=3)` is
3 * 86400 seconds. -/
def classify (due now : Int) : UrgencyLevel :=
  if due ≤ now then UrgencyLevel.high
  else if due ≤ now + 3 * 86400 then UrgencyLevel.medium
  else UrgencyLevel.normal

/-- `Renewal.save` (models.py) on a single row: the override recomputes the
urgency level from the due date and `now` before the row is persisted.  (The
sibling-refresh it also triggers is modelled at store level, below.) -/
def Renewal.saveRow (r : Renewal) (now : Int) : Renewal :=
  { r with urgency_level := classify r.due_date now }

/-- `RenewalService.generate_renewals_for_jobcard` (services.py).  The
signature takes only the jobcard (there is no `force_regenerate` parameter
and no check for pre-existing renewals).  Every created row is persisted via
`Renewal.save`, which stamps its urgency level at `now`.  Freshly inserted
rows are modelled with `id := 0` (database-assigned ids are irrelevant to
the properties below). -/
def generate_renewals_for_jobcard (jobcard : JobCard) (now : Int) : List Renewal :=
  match jobcard.job_type with
  | JobType.customer =>
    match jobcard.next_service_date with
    | some nsd =>
      let renewal : Renewal :=
        { id := 0
          jobcardId := jobcard.id
          due_date := midnightTs nsd
          status := RenewalStatus.due
          renewal_type := RenewalType.contract_renewal
          urgency_level := UrgencyLevel.normal
          remarks := "Service renewal for customer " ++ jobcard.client_full_name }
      [renewal.saveRow now]
    | none => []
  | JobType.society =>
    match jobcard.contract_duration with
    | some contract_months =>
      let start_date := jobcard.schedule_date
      let contract_end_date := addMonths start_date contract_months
      let contract_renewal : Renewal :=
        { id := 0
          jobcardId := jobcard.id
          due_date := midnightTs (predDay contract_end_date)
          status := RenewalStatus.due
          renewal_type := RenewalType.contract_renewal
          urgency_level := UrgencyLevel.normal
          remarks := "Contract renewal for society " ++ jobcard.client_full_name }
      contract_renewal.saveRow now ::
        (List.range' 1 contract_months).map (fun month =>
          let monthly_reminder : Renewal :=
            { id := 0
              jobcardId := jobcard.id
              due_date := midnightTs (predDay (addMonths start_date month))
              status := RenewalStatus.due
              renewal_type := RenewalType.monthly_reminder
              urgency_level := UrgencyLevel.normal
              remarks := "Monthly service reminder for society " ++ jobcard.client_full_name }
          monthly_reminder.saveRow now)
    | none => []

/-- C3: `update_urgency_level` is a pure three-way classification: High iff
`due ≤ now`, Medium iff `now < due ≤ now + 3 days`, Normal iff
`now + 3 days < due`. -/
theorem C3_classify_three_way (due now : Int) :
    (classify due now = UrgencyLevel.high ↔ due ≤ now) ∧
    (classify due now = UrgencyLevel.medium ↔ now < due ∧ due ≤ now + 3 * 86400) ∧
    (classify due now = UrgencyLevel.normal ↔ now + 3 * 86400 < due) := by
  unfold classify
  split_ifs with h1 h2 <;> simp_all
  all_goals omega

/-- One generation pass as the API layer performs it: `renewal.save()` inserts
each created row, so the renewal table grows by exactly the returned list.
`db` is the renewal table before the call; the result is the table after. -/
def generateAndStore (db : List Renewal) (jobcard : JobCard) (now : Int) : List Renewal :=
  db ++ generate_renewals_for_jobcard jobcard now

/-- A concrete Customer-type job with a next service date, used to evaluate
the generator at a specific input. -/
def customerJob : JobCard :=
  { id := 2
    client_full_name := "John Doe"
    job_type := JobType.customer
    contract_duration := none
    schedule_date := { year := 2025, month := 1, day := 1 }
    next_service_date := some { year := 2025, month := 3, day := 1 }
    is_paused := false }

/-- A concrete Society-type job whose contract duration is absent. -/
def societyJobNoDuration : JobCard :=
  { id := 3
    client_full_name := "Green Valley Society"
    job_type := JobType.society
    contract_duration := none
    schedule_date := { year := 2025, month := 1, day := 1 }
    next_service_date := none
    is_paused := false }

/-- A concrete Society-type job with a 3-month contract starting 2025-01-01
(the scenario of spec §8). -/
def societyJob3 : JobCard :=
  { id := 4
    client_full_name := "Green Valley Society"
    job_type := JobType.society
    contract_duration := some 3
    schedule_date := { year := 2025, month := 1, day := 1 }
    next_service_date := none
    is_paused := false }

/-- C1: `generate_renewals_for_jobcard` accepts no `force_regenerate`
parameter and performs no existence check, so a second call on a job that
already has renewals appends a duplicate batch instead of being a no-op:
for a Customer job with a next service date, one call leaves 1 renewal row,
a second call leaves 2, and the resulting set differs from the single-call
set. -/
theorem C1_generation_not_idempotent :
    (generateAndStore [] customerJob 0).length = 1 ∧
    (generateAndStore (generateAndStore [] customerJob 0) customerJob 0).length = 2 ∧
    generateAndStore (generateAndStore [] customerJob 0) customerJob 0 ≠
      generateAndStore [] customerJob 0 := by
  refine ⟨rfl, rfl, ?_⟩
  decide

/-- C2: for a Society job with contract length `n ∈ {3, 6, 12}` months and
schedule date `d`, generation creates exactly `1 + n` renewals: the first is
a ContractRenewal due at midnight one day before `d + n` months, and for
each `k` in `1..n` the entry at position `k` is a MonthlyReminder due at
midnight one day before `d + k` months. -/
theorem C2_society_generation (jobcard : JobCard) (now : Int) (n : Nat)
    (hkind : jobcard.job_type = JobType.society)
    (hdur : jobcard.contract_duration = some n)
    (_hn : n = 3 ∨ n = 6 ∨ n = 12) :
    (generate_renewals_for_jobcard jobcard now).length = 1 + n ∧
    (∀ r, (generate_renewals_for_jobcard jobcard now).head? = some r →
      r.renewal_type = RenewalType.contract_renewal ∧
      r.due_date = midnightTs (predDay (addMonths jobcard.schedule_date n))) ∧
    (∀ k, 1 ≤ k → k ≤ n →
      ∀ r, (generate_renewals_for_jobcard jobcard now)[k]? = some r →
        r.renewal_type = RenewalType.monthly_reminder ∧
        r.due_date = midnightTs (predDay (addMonths jobcard.schedule_date k))) := by
  unfold generate_renewals_for_jobcard
  rw [hkind, hdur]
  refine ⟨by simp [Nat.add_comm], ?_, ?_⟩
  · intro r hr
    simp only [List.head?_cons, Option.some_inj] at hr
    subst hr
    exact ⟨rfl, rfl⟩
  · intro k hk1 hkn r hr
    obtain ⟨j, rfl⟩ : ∃ j, k = j + 1 := ⟨k - 1, by omega⟩
    have hj : j < n := by omega
    simp only [List.getElem?_cons_succ, List.getElem?_map,
      List.getElem?_range', hj, if_pos, Option.map_some', Option.some_inj] at hr
    subst hr
    have hj1 : 1 + 1 * j = j + 1 := by omega
    exact ⟨rfl, by simp only [Renewal.saveRow, hj1]⟩

/-- Witness for C2 at the spec §8 scenario: Society job, schedule date
2025-01-01, 3-month contract — 4 renewals in total; the month-1, month-2 and
month-3 reminders fall on 2025-01-31, 2025-02-28 and 2025-03-31, and the
contract renewal on 2025-03-31. -/
theorem C2_society_generation_witness :
    (generate_renewals_for_jobcard societyJob3 0).length = 1 + 3 ∧
    (∀ r, (generate_renewals_for_jobcard societyJob3 0).head? = some r →
      r.renewal_type = RenewalType.contract_renewal ∧
      r.due_date = midnightTs (predDay (addMonths societyJob3.schedule_date 3))) ∧
    midnightTs (predDay (addMonths societyJob3.schedule_date 3)) =
      midnightTs { year := 2025, month := 3, day := 31 } ∧
    midnightTs (predDay (addMonths societyJob3.schedule_date 1)) =
      midnightTs { year := 2025, month := 1, day := 31 } ∧
    midnightTs (predDay (addMonths societyJob3.schedule_date 2)) =
      midnightTs { year := 2025, month := 2, day := 28 } := by
  have h := C2_society_generation societyJob3 0 3 rfl rfl (Or.inl rfl)
  exact ⟨h.1, h.2.1, by decide, by decide, by decide⟩

/-- C4 counterexample: for a Society job whose contract length is absent, the
generator does not fail at all — the `elif job_type == SOCIETY and
jobcard.contract_duration` guard silently skips the branch and the call
returns normally with the empty list, contradicting the claimed
`MissingContractLength` reported error. -/
theorem C4_missing_duration_silently_empty :
    generate_renewals_for_jobcard societyJobNoDuration 0 = [] := rfl

/-- C4 amended: for every Society job whose contract duration is absent,
`generate_renewals_for_jobcard` returns the empty list without reporting any
error (a silent no-op rather than a `MissingContractLength` failure). -/
theorem C4_missing_duration_returns_empty (jobcard : JobCard) (now : Int)
    (hkind : jobcard.job_type = JobType.society)
    (hdur : jobcard.contract_duration = none) :
    generate_renewals_for_jobcard jobcard now = [] := by
  unfold generate_renewals_for_jobcard
  rw [hkind, hdur]

/-- Witness for the amended C4 at the concrete duration-less Society job. -/
theorem C4_missing_duration_returns_empty_witness :
    generate_renewals_for_jobcard societyJobNoDuration 7 = [] :=
  C4_missing_duration_returns_empty societyJobNoDuration 7 rfl rfl

/-- The relational store the renewal engine works against: the `JobCard`
table and the `Renewal` table. -/
structure Store where
  jobcards : List JobCard
  renewals : List Renewal
deriving DecidableEq, Repr

/-- The SQL join behind `filter(jobcard__is_paused=False)`: a renewal passes
iff its jobcard row exists and is not paused. -/
def jobcardNotPaused (jobcards : List JobCard) (jid : Nat) : Bool :=
  match jobcards.find? (fun j => j.id == jid) with
  | some j => !j.is_paused
  | none => false

/-- `RenewalService.get_active_renewals`: renewals in `Due` status, minus
those of paused jobcards unless `include_paused` is set. -/
def get_active_renewals (s : Store) (include_paused : Bool) : List Renewal :=
  let due_renewals := s.renewals.filter (fun r => r.status == RenewalStatus.due)
  if include_paused then due_renewals
  else due_renewals.filter (fun r => jobcardNotPaused s.jobcards r.jobcardId)

/-- The six aggregates returned by `RenewalService.get_upcoming_summary`. -/
structure UpcomingSummary where
  due_this_week : Nat
  due_this_month : Nat
  overdue : Nat
  high_urgency : Nat
  medium_urgency : Nat
  normal_urgency : Nat
deriving DecidableEq, Repr

/-- `RenewalService.get_upcoming_summary`: pure aggregation over the
(optionally pause-filtered) Due renewal set, windowed at `now`, `now + 7d`
and `now + 30d`. -/
def get_upcoming_summary (s : Store) (include_paused : Bool) (now : Int) : UpcomingSummary :=
  let week := now + 7 * 86400
  let month := now + 30 * 86400
  let renewals := get_active_renewals s include_paused
  { due_this_week := (renewals.filter (fun r => r.due_date ≤ week && now ≤ r.due_date)).length
    due_this_month := (renewals.filter (fun r => r.due_date ≤ month && now ≤ r.due_date)).length
    overdue := (renewals.filter (fun r => r.due_date < now)).length
    high_urgency := (renewals.filter (fun r => r.urgency_level == UrgencyLevel.high)).length
    medium_urgency := (renewals.filter (fun r => r.urgency_level == UrgencyLevel.medium)).length
    normal_urgency := (renewals.filter (fun r => r.urgency_level == UrgencyLevel.normal)).length }

/-- `RenewalService.toggle_jobcard_pause`: look the jobcard up by id, set its
`is_paused` flag and save it; return `false` when the id does not exist.
`JobCard.save` touches no `Renewal` row. -/
def toggle_jobcard_pause (s : Store) (jobcard_id : Nat) (is_paused : Bool) : Store × Bool :=
  if s.jobcards.any (fun j => j.id == jobcard_id) then
    ({ s with
        jobcards := s.jobcards.map (fun j =>
          if j.id == jobcard_id then { j with is_paused := is_paused } else j) },
     true)
  else (s, false)

/-- Helper: after the pause toggle, `find?` for the toggled id returns the
old row with its `is_paused` flag replaced. -/
theorem find?_togglemap_self (l : List JobCard) (jid : Nat) (p : Bool) :
    (l.map (fun j => if j.id == jid then { j with is_paused := p } else j)).find?
        (fun j => j.id == jid) =
      (l.find? (fun j => j.id == jid)).map (fun j => { j with is_paused := p }) := by
  have hf : ((fun j => j.id == jid) ∘
      (fun j => if j.id == jid then { j with is_paused := p } else j)) =
      (fun (j : JobCard) => j.id == jid) := by
    funext j
    by_cases h : j.id = jid <;> simp [h]
  rw [List.find?_map, hf]
  cases hfind : l.find? (fun j => j.id == jid) with
  | none => rfl
  | some j =>
    have hj := List.find?_some hfind
    simp only [beq_iff_eq] at hj
    simp [hj]

/-- Helper: the pause toggle of one id leaves `find?` for any other id
unchanged. -/
theorem find?_togglemap_ne (l : List JobCard) (jid tid : Nat) (p : Bool) (h : tid ≠ jid) :
    (l.map (fun j => if j.id == jid then { j with is_paused := p } else j)).find?
        (fun j => j.id == tid) =
      l.find? (fun j => j.id == tid) := by
  have hf : ((fun j => j.id == tid) ∘
      (fun j => if j.id == jid then { j with is_paused := p } else j)) =
      (fun (j : JobCard) => j.id == tid) := by
    funext j
    by_cases hj : j.id = jid <;> simp [hj]
  rw [List.find?_map, hf]
  cases hfind : l.find? (fun j => j.id == tid) with
  | none => rfl
  | some j =>
    have hj := List.find?_some hfind
    simp only [beq_iff_eq] at hj
    have hne : ¬ j.id = jid := by omega
    simp [hne]

/-- Helper: after pausing jobcard `jid`, the join predicate rejects every
renewal of `jid`. -/
theorem jobcardNotPaused_after_pause (l : List JobCard) (jid : Nat) :
    jobcardNotPaused
        (l.map (fun j => if j.id == jid then { j with is_paused := true } else j)) jid = false := by
  unfold jobcardNotPaused
  rw [find?_togglemap_self]
  cases l.find? (fun j => j.id == jid) <;> rfl

/-- Helper: after `toggle_jobcard_pause s jid true`, the join predicate
rejects jobcard `jid` (whether or not the jobcard row exists). -/
theorem jobcardNotPaused_after_toggle (s : Store) (jid : Nat) :
    jobcardNotPaused (toggle_jobcard_pause s jid true).1.jobcards jid = false := by
  unfold toggle_jobcard_pause
  by_cases hany : s.jobcards.any (fun j => j.id == jid)
  · simp only [hany, if_true]
    exact jobcardNotPaused_after_pause s.jobcards jid
  · simp only [Bool.not_eq_true] at hany
    simp only [hany, Bool.false_eq_true, if_false]
    unfold jobcardNotPaused
    have : s.jobcards.find? (fun j => j.id == jid) = none := by
      rw [List.find?_eq_none]
      intro x hx
      rw [List.any_eq_false] at hany
      exact fun hpx => hany x hx hpx
    rw [this]

/-- C6: `toggle_jobcard_pause` mutates only the jobcard's pause flag and no
Renewal row; after pausing a job, the summary with `include_paused = false`
computes all six counts as if that job's renewals were absent, while the
summary with `include_paused = true` is unchanged. -/
theorem C6_pause_cascade (s : Store) (jobcard_id : Nat) (p : Bool) (now : Int) :
    ((toggle_jobcard_pause s jobcard_id p).1.renewals = s.renewals) ∧
    ((get_active_renewals (toggle_jobcard_pause s jobcard_id true).1 false).all
        (fun r => r.jobcardId != jobcard_id) = true) ∧
    (get_upcoming_summary (toggle_jobcard_pause s jobcard_id true).1 false now =
      get_upcoming_summary
        { jobcards := (toggle_jobcard_pause s jobcard_id true).1.jobcards
          renewals := s.renewals.filter (fun r => r.jobcardId != jobcard_id) }
        false now) ∧
    (get_upcoming_summary (toggle_jobcard_pause s jobcard_id p).1 true now =
      get_upcoming_summary s true now) := by
  have hframe : ∀ q : Bool, (toggle_jobcard_pause s jobcard_id q).1.renewals = s.renewals := by
    intro q
    unfold toggle_jobcard_pause
    split <;> rfl
  have hreject := jobcardNotPaused_after_toggle s jobcard_id
  refine ⟨hframe p, ?_, ?_, ?_⟩
  · rw [List.all_eq_true]
    intro r hr
    unfold get_active_renewals at hr
    simp only [if_false, Bool.false_eq_true, List.mem_filter] at hr
    have hkeep := hr.2
    by_cases hid : r.jobcardId = jobcard_id
    · rw [hid, hreject] at hkeep
      exact absurd hkeep (by simp)
    · simp [hid]
  · have hactive :
        get_active_renewals (toggle_jobcard_pause s jobcard_id true).1 false =
          get_active_renewals
            { jobcards := (toggle_jobcard_pause s jobcard_id true).1.jobcards
              renewals := s.renewals.filter (fun r => r.jobcardId != jobcard_id) }
            false := by
      unfold get_active_renewals
      simp only [if_false, Bool.false_eq_true, hframe]
      rw [List.filter_filter, List.filter_filter, List.filter_filter]
      apply List.filter_congr
      intro r _
      by_cases hP : jobcardNotPaused (toggle_jobcard_pause s jobcard_id true).1.jobcards
          r.jobcardId = true
      · have hid : r.jobcardId ≠ jobcard_id := by
          intro hc
          rw [hc, hreject] at hP
          exact absurd hP (by simp)
        simp [hP, hid]
      · simp only [Bool.not_eq_true] at hP
        simp [hP]
    unfold get_upcoming_summary
    rw [hactive]
  · unfold get_upcoming_summary get_active_renewals
    simp only [if_true, hframe]

/-- `RenewalService.update_urgency_levels_for_jobcard`, net store effect at
one instant: every Due renewal of the jobcard carries its recomputed urgency
(the source loop skips the write when the recomputed level equals the stored
one, which leaves the row identical). -/
def update_urgency_levels_for_jobcard (renewals : List Renewal) (jid : Nat) (now : Int) :
    List Renewal :=
  renewals.map (fun r =>
    if r.jobcardId == jid && r.status == RenewalStatus.due then r.saveRow now else r)

/-- `Renewal.save` against the renewal table: recompute the saved row's
urgency, write the row (update by id when present, else insert), then
refresh the urgency of the same jobcard's Due renewals, as the save override
triggers via `update_urgency_levels_for_jobcard`. -/
def saveRenewalToStore (renewals : List Renewal) (r : Renewal) (now : Int) : List Renewal :=
  let written := r.saveRow now
  let base :=
    if renewals.any (fun x => x.id == r.id) then
      renewals.map (fun x => if x.id == r.id then written else x)
    else renewals ++ [written]
  update_urgency_levels_for_jobcard base r.jobcardId now

/-- `RenewalService.mark_completed`: look the renewal up by id, set its
status to `Completed` and save it; `false` when the id does not exist. -/
def mark_completed (renewals : List Renewal) (renewal_id : Nat) (now : Int) :
    List Renewal × Bool :=
  match renewals.find? (fun r => r.id == renewal_id) with
  | some renewal =>
    (saveRenewalToStore renewals { renewal with status := RenewalStatus.completed } now, true)
  | none => (renewals, false)

/-- `RenewalService.update_urgency_levels`, net effect at one instant: every
Due renewal's urgency is recomputed, and the returned count is the number of
Due rows whose stored urgency differed from the recomputed one. -/
def update_urgency_levels (renewals : List Renewal) (now : Int) : List Renewal × Nat :=
  (renewals.map (fun r => if r.status == RenewalStatus.due then r.saveRow now else r),
   (renewals.filter (fun r =>
     r.status == RenewalStatus.due && r.urgency_level != classify r.due_date now)).length)

/-- Helper: a row that just went through `Renewal.save` carries the urgency
computed from its own due date at save time. -/
theorem saveRow_consistent (r : Renewal) (now : Int) :
    (r.saveRow now).urgency_level = classify (r.saveRow now).due_date now := rfl

/-- Helper: every row of the table after a store-level save is either an
untouched pre-existing row or carries the urgency computed at save time. -/
theorem mem_saveRenewalToStore (rs : List Renewal) (r0 : Renewal) (now : Int) (r : Renewal)
    (hr : r ∈ saveRenewalToStore rs r0 now) :
    r ∈ rs ∨ r.urgency_level = classify r.due_date now := by
  unfold saveRenewalToStore update_urgency_levels_for_jobcard at hr
  rw [List.mem_map] at hr
  obtain ⟨x, hx, hgx⟩ := hr
  by_cases hcond : (x.jobcardId == r0.jobcardId && x.status == RenewalStatus.due) = true
  · simp only [hcond, if_true] at hgx
    right
    rw [← hgx]
    exact saveRow_consistent x now
  · rw [Bool.not_eq_true] at hcond
    simp only [hcond, Bool.false_eq_true, if_false] at hgx
    subst hgx
    split at hx
    · rw [List.mem_map] at hx
      obtain ⟨y, hy, hgy⟩ := hx
      by_cases hyid : (y.id == r0.id) = true
      · simp only [hyid, if_true] at hgy
        right
        rw [← hgy]
        exact saveRow_consistent r0 now
      · rw [Bool.not_eq_true] at hyid
        simp only [hyid, Bool.false_eq_true, if_false] at hgy
        subst hgy
        exact Or.inl hy
    · rw [List.mem_append] at hx
      rcases hx with hx | hx
      · exact Or.inl hx
      · rw [List.mem_singleton] at hx
        subst hx
        right
        exact saveRow_consistent r0 now

/-- C7: on every save path — the save override itself, renewal creation by
the generator, and the completion/field-update path through
`mark_completed` — a row written to the store carries the urgency level
computed from its due date at the moment of saving (`classify`), never a
stale or default one. -/
theorem C7_urgency_fresh_on_save (jc : JobCard) (rs : List Renewal) (r0 : Renewal)
    (rid : Nat) (now : Int) :
    ((r0.saveRow now).urgency_level = classify (r0.saveRow now).due_date now) ∧
    ((generate_renewals_for_jobcard jc now).all
      (fun r => r.urgency_level == classify r.due_date now) = true) ∧
    ((saveRenewalToStore rs r0 now).all
      (fun r => decide (r ∈ rs) || (r.urgency_level == classify r.due_date now)) = true) ∧
    (((mark_completed rs rid now).1).all
      (fun r => decide (r ∈ rs) || (r.urgency_level == classify r.due_date now)) = true) := by
  refine ⟨saveRow_consistent r0 now, ?_, ?_, ?_⟩
  · rw [List.all_eq_true]
    intro r hr
    have hgoal : ∀ x : Renewal, r = x.saveRow now →
        (r.urgency_level == classify r.due_date now) = true := by
      intro x hx
      subst hx
      simp [saveRow_consistent]
    obtain ⟨jid, cname, jtype, dur, sched, nsdo, paused⟩ := jc
    unfold generate_renewals_for_jobcard at hr
    cases jtype with
    | customer =>
      cases nsdo with
      | some nsd =>
        rw [List.mem_singleton] at hr
        exact hgoal _ hr
      | none => simp at hr
    | society =>
      cases dur with
      | some n =>
        rw [List.mem_cons] at hr
        rcases hr with hr | hr
        · exact hgoal _ hr
        · rw [List.mem_map] at hr
          obtain ⟨m, _, hm⟩ := hr
          exact hgoal _ hm.symm
      | none => simp at hr
  · rw [List.all_eq_true]
    intro r hr
    rcases mem_saveRenewalToStore rs r0 now r hr with h | h
    · simp [h]
    · simp [h]
  · rw [List.all_eq_true]
    intro r hr
    unfold mark_completed at hr
    split at hr
    · rcases mem_saveRenewalToStore rs _ now r hr with h | h
      · simp [h]
      · simp [h]
    · simp only at hr
      simp [hr]

/-- Helper: the batch pass writes a row differently iff the row is Due and
its stored urgency differs from the recomputed one. -/
theorem row_changed_iff (r : Renewal) (now : Int) :
    ((if r.status == RenewalStatus.due then r.saveRow now else r) != r) =
      (r.status == RenewalStatus.due && r.urgency_level != classify r.due_date now) := by
  by_cases hs : (r.status == RenewalStatus.due) = true
  · simp only [hs, if_true, Bool.true_and]
    rcases r with ⟨i, j, d, st, ty, u, rem⟩
    simp only [Renewal.saveRow]
    rw [Bool.eq_iff_iff]
    constructor
    · intro hne
      simp only [bne_iff_ne, ne_eq, Renewal.mk.injEq] at hne ⊢
      intro hu
      exact hne (by simp [hu])
    · intro hne
      simp only [bne_iff_ne, ne_eq, Renewal.mk.injEq] at hne ⊢
      intro hmk
      exact hne (by simp [hmk.2.2.2.2.2.1])
  · rw [Bool.not_eq_true] at hs
    simp [hs]

/-- C8: `update_urgency_levels` recomputes the urgency of every Due renewal,
returns exactly the number of rows whose stored row actually changed, and is
idempotent at a fixed instant: a second run changes no row and returns 0. -/
theorem C8_recompute_all_due (renewals : List Renewal) (now : Int) :
    ((update_urgency_levels renewals now).2 =
      (renewals.filter (fun r =>
        (if r.status == RenewalStatus.due then r.saveRow now else r) != r)).length) ∧
    ((update_urgency_levels renewals now).1.all
      (fun r => !(r.status == RenewalStatus.due) ||
        (r.urgency_level == classify r.due_date now)) = true) ∧
    (update_urgency_levels (update_urgency_levels renewals now).1 now =
      ((update_urgency_levels renewals now).1, 0)) := by
  refine ⟨?_, ?_, ?_⟩
  · unfold update_urgency_levels
    simp only
    congr 1
    apply List.filter_congr
    intro r _
    exact (row_changed_iff r now).symm
  · rw [List.all_eq_true]
    intro r hr
    unfold update_urgency_levels at hr
    simp only [List.mem_map] at hr
    obtain ⟨x, _, hgx⟩ := hr
    by_cases hs : (x.status == RenewalStatus.due) = true
    · simp only [hs, if_true] at hgx
      subst hgx
      have hst : ((x.saveRow now).status == RenewalStatus.due) = true := hs
      simp [hst, saveRow_consistent]
    · rw [Bool.not_eq_true] at hs
      simp only [hs, Bool.false_eq_true, if_false] at hgx
      subst hgx
      simp [hs]
  · unfold update_urgency_levels
    simp only [Prod.mk.injEq]
    constructor
    · rw [List.map_map]
      apply List.map_congr_left
      intro x _
      simp only [Function.comp_apply]
      by_cases hs : (x.status == RenewalStatus.due) = true
      · have hst : ((x.saveRow now).status == RenewalStatus.due) = true := hs
        simp only [hs, if_true, hst]
        rfl
      · rw [Bool.not_eq_true] at hs
        simp [hs]
    · rw [List.length_eq_zero, List.filter_eq_nil_iff]
      intro a ha
      rw [List.mem_map] at ha
      obtain ⟨x, _, hgx⟩ := ha
      by_cases hs : (x.status == RenewalStatus.due) = true
      · simp only [hs, if_true] at hgx
        subst hgx
        have hcons := saveRow_consistent x now
        simp [hcons]
      · rw [Bool.not_eq_true] at hs
        simp only [hs, Bool.false_eq_true, if_false] at hgx
        subst hgx
        simp [hs]

/-- A `Client` row, restricted to the fields the dedup path reads and
writes (`address`, `notes`, `is_active` are never consulted by it). -/
structure Client where
  id : Nat
  full_name : String
  mobile : String
  email : Option String
  city : String
deriving DecidableEq, Repr

/-- The character class `[\s\-\(\)]` that `re.sub` strips from mobile
numbers: Python `\s` is space, tab, newline, carriage return, vertical tab
and form feed. -/
def isStrippedChar (c : Char) : Bool :=
  c == ' ' || c == '\t' || c == '\n' || c == '\r' || c == '\x0b' || c == '\x0c' ||
  c == '-' || c == '(' || c == ')'

/-- `re.sub(r'[\s\-\(\)]', '', s)`. -/
def cleanMobile (s : String) : String :=
  String.mk (s.data.filter (fun c => !isStrippedChar c))

/-- `re.match(r'^\d{10}$', s)`: exactly ten digit characters. -/
def isTenDigits (s : String) : Bool :=
  s.data.length == 10 && s.data.all (fun c => c.isDigit)

/-- A Python whitespace character (the class `\s` / what `str.strip()`
removes). -/
def isPyWhitespace (c : Char) : Bool :=
  c == ' ' || c == '\t' || c == '\n' || c == '\r' || c == '\x0b' || c == '\x0c'

/-- Python `str.strip()`: drop whitespace from both ends. -/
def pyStrip (s : String) : String :=
  String.mk (((s.data.dropWhile isPyWhitespace).reverse.dropWhile isPyWhitespace).reverse)

/-- Python truthiness of an optional string field (`None` and `''` are
falsy). -/
def truthy (o : Option String) : Bool :=
  match o with
  | none => false
  | some s => s != ""

/-- The `data` dict handed to `ClientService.create_client` (the keys the
function reads). -/
structure ClientData where
  full_name : Option String
  mobile : Option String
  email : Option String
  city : Option String
deriving DecidableEq, Repr

/-- Typed rendering of the `ValidationError` messages raised on the client
paths.  `alreadyExists` renders "A client with mobile number X already
exists." — the only message containing both `'mobile'` and
`'already exists'`, which is the exception-message test
`get_or_create_client` uses to detect the duplicate-row conflict.
`missingMobileKey` renders the wrapped `KeyError` when the dict has no
mobile at all. -/
inductive ClientError where
  | alreadyExists (mobile : String)
  | requiredFieldMissing (field : String)
  | invalidMobileFormat
  | invalidEmail
  | fullNameTooShort
  | cityBlank
  | missingMobileKey
  | unableToCreateOrFind (mobile : String)
deriving DecidableEq, Repr

/-- `ClientService.create_client` (sequential embedding, `db` is the Client
table).  Steps in source order: clean the mobile (cleaning an absent key is
skipped in the source, and cleaning a falsy `''` is the identity, so the
step is `Option.map cleanMobile`); reject when a row with that mobile
exists; require `full_name`, `mobile`, `city` (in that order, Python
truthiness); reject a non-10-digit mobile; validate a non-blank email with
the external validator `emailValid`; then the `full_clean`/`clean()` model
rules (name at least 2 characters once stripped, city non-blank); finally
insert the row.  The external email validator is a parameter because
`django.core.validators.validate_email` is library code outside this
repository. -/
def create_client (db : List Client) (data : ClientData) (emailValid : String → Bool) :
    Except ClientError (List Client × Client) :=
  match data.mobile.map cleanMobile with
  | none => Except.error ClientError.missingMobileKey
  | some m =>
    if (db.find? (fun c => c.mobile == m)).isSome then
      Except.error (ClientError.alreadyExists m)
    else if !truthy data.full_name then
      Except.error (ClientError.requiredFieldMissing "full_name")
    else if m == "" then
      Except.error (ClientError.requiredFieldMissing "mobile")
    else if !truthy data.city then
      Except.error (ClientError.requiredFieldMissing "city")
    else if !isTenDigits m then
      Except.error ClientError.invalidMobileFormat
    else if truthy data.email && pyStrip (data.email.getD "") != "" &&
        !emailValid (data.email.getD "") then
      Except.error ClientError.invalidEmail
    else if (pyStrip (data.full_name.getD "")).length < 2 then
      Except.error ClientError.fullNameTooShort
    else if pyStrip (data.city.getD "") == "" then
      Except.error ClientError.cityBlank
    else
      let client : Client :=
        { id := db.length + 1
          full_name := data.full_name.getD ""
          mobile := m
          email := data.email
          city := data.city.getD "" }
      Except.ok (db ++ [client], client)

/-- `ClientService.get_or_create_client` (sequential embedding).  The
`select_for_update` row lock serializes calls for one number and is
invisible in a sequential model.  The number is cleaned before the lookup;
a found row is returned with `wasCreated = false`; otherwise the row is
created with `city or 'Unknown'` defaulting, and a creation failure whose
message contains both `'mobile'` and `'already exists'` (exactly the
`alreadyExists` error) triggers the re-read path. -/
def get_or_create_client (db : List Client) (name : String) (mobile : String)
    (email : Option String) (city : Option String) (emailValid : String → Bool) :
    Except ClientError (List Client × Client × Bool) :=
  let cleaned_mobile := cleanMobile mobile
  match db.find? (fun c => c.mobile == cleaned_mobile) with
  | some client => Except.ok (db, client, false)
  | none =>
    let client_data : ClientData :=
      { full_name := some name
        mobile := some cleaned_mobile
        email := email
        city := some (if truthy city then city.getD "" else "Unknown") }
    match create_client db client_data emailValid with
    | Except.ok (db2, client) => Except.ok (db2, client, true)
    | Except.error e =>
      match e with
      | ClientError.alreadyExists _ =>
        match db.find? (fun c => c.mobile == cleaned_mobile) with
        | some client => Except.ok (db, client, false)
        | none => Except.error (ClientError.unableToCreateOrFind cleaned_mobile)
      | _ => Except.error e

/-- Helper: stripping the mobile character class is idempotent. -/
theorem cleanMobile_idem (s : String) : cleanMobile (cleanMobile s) = cleanMobile s := by
  unfold cleanMobile
  rw [List.filter_filter]
  congr 1
  apply List.filter_congr
  intro c _
  cases h : isStrippedChar c <;> simp [h]

/-- C5 counterexample, two concrete calls on an empty Client table:
(1) name absent and cleaned mobile `"12"` (not 10 digits) — the call fails
with `RequiredFieldMissing full_name`, not with the claimed `InvalidInput`,
because the required-field checks precede the format check; (2) name and
valid mobile present but city absent — the call succeeds and stores city
`"Unknown"` instead of failing with the claimed `RequiredFieldMissing`. -/
theorem C5_counterexample :
    (get_or_create_client [] "" "12" none none (fun _ => true) =
      Except.error (ClientError.requiredFieldMissing "full_name")) ∧
    (get_or_create_client [] "John Doe" "9876543210" none none (fun _ => true) =
      Except.ok
        ([{ id := 1, full_name := "John Doe", mobile := "9876543210", email := none,
            city := "Unknown" }],
          { id := 1, full_name := "John Doe", mobile := "9876543210", email := none,
            city := "Unknown" },
          true)) := by
  exact ⟨rfl, rfl⟩

/-- C5 amended: `get_or_create_client` strips whitespace, hyphens and
parentheses from the number before any lookup or write; a found row is
returned untouched with `wasCreated = false` (no format validation on the
found path); on the creating path the required-field checks run before the
format check, so an absent name yields `RequiredFieldMissing full_name`
even when the number is malformed, a nonempty non-10-digit number with a
present name yields `InvalidInput`, and an absent city is defaulted to
`"Unknown"` instead of being rejected. -/
theorem C5_find_or_create_amended (db : List Client) (name mobile : String)
    (email city : Option String) (emailValid : String → Bool) :
    (get_or_create_client db name mobile email city emailValid =
      get_or_create_client db name (cleanMobile mobile) email city emailValid) ∧
    (∀ c, db.find? (fun x => x.mobile == cleanMobile mobile) = some c →
      get_or_create_client db name mobile email city emailValid =
        Except.ok (db, c, false)) ∧
    (db.find? (fun x => x.mobile == cleanMobile mobile) = none → name = "" →
      get_or_create_client db name mobile email city emailValid =
        Except.error (ClientError.requiredFieldMissing "full_name")) ∧
    (db.find? (fun x => x.mobile == cleanMobile mobile) = none → name ≠ "" →
      cleanMobile mobile ≠ "" → isTenDigits (cleanMobile mobile) = false →
      get_or_create_client db name mobile email city emailValid =
        Except.error ClientError.invalidMobileFormat) ∧
    (db.find? (fun x => x.mobile == cleanMobile mobile) = none → city = none →
      name ≠ "" → 2 ≤ (pyStrip name).length → isTenDigits (cleanMobile mobile) = true →
      email = none →
      get_or_create_client db name mobile email city emailValid =
        Except.ok
          (db ++ [{ id := db.length + 1, full_name := name,
                    mobile := cleanMobile mobile, email := none, city := "Unknown" }],
            { id := db.length + 1, full_name := name, mobile := cleanMobile mobile,
              email := none, city := "Unknown" },
            true)) := by
  refine ⟨?_, ?_, ?_, ?_, ?_⟩
  · unfold get_or_create_client
    simp only [cleanMobile_idem]
  · intro c hc
    unfold get_or_create_client
    simp only [hc]
  · intro hfind hname
    subst hname
    unfold get_or_create_client create_client
    simp [hfind, cleanMobile_idem, truthy]
  · intro hfind hname hne hten
    unfold get_or_create_client create_client
    simp only [hfind, cleanMobile_idem, Option.map_some']
    cases city with
    | none => simp [truthy, hname, hne, hten]
    | some s =>
      by_cases hs : s = "" <;>
        simp [truthy, hname, hne, hten, hs]
  · intro hfind hcity hname hlen hten hemail
    subst hcity
    subst hemail
    have hne : cleanMobile mobile ≠ "" := by
      intro h
      rw [h] at hten
      simp [isTenDigits] at hten
    have hlen2 : ¬ (pyStrip name).length < 2 := by omega
    have hunknown : pyStrip "Unknown" = "Unknown" := rfl
    unfold get_or_create_client create_client
    simp [hfind, cleanMobile_idem, truthy, hname, hne, hten, hlen2, hunknown]

/-- Witness for the amended C5 at a concrete formatted number: two spellings
of the same number normalize to ten digits, and an absent city is stored as
`"Unknown"` with `wasCreated = true`. -/
theorem C5_find_or_create_amended_witness :
    get_or_create_client [] "Jane Doe" "98-765 43210" none none (fun _ => true) =
      Except.ok
        ([{ id := 1, full_name := "Jane Doe", mobile := cleanMobile "98-765 43210",
            email := none, city := "Unknown" }],
          { id := 1, full_name := "Jane Doe", mobile := cleanMobile "98-765 43210",
            email := none, city := "Unknown" },
          true) := by
  exact (C5_find_or_create_amended [] "Jane Doe" "98-765 43210" none none
    (fun _ => true)).2.2.2.2 rfl rfl (by decide) (by decide) (by decide) rfl

/-- Parameter list of `RenewalService.generate_renewals_for_jobcard`
(services.py line 464): one positional parameter `jobcard`, no
`force_regenerate`, no `**kwargs`. -/
def generate_renewals_param_names : List String := ["jobcard"]

/-- Python call binding of positional plus keyword arguments against a
signature without `**kwargs`: the call raises `TypeError` unless every
keyword names a parameter that the positional arguments have not already
bound. -/
def pythonKwargsAccepted (params : List String) (npositional : Nat) (kwargs : List String) :
    Bool :=
  npositional ≤ params.length &&
    kwargs.all (fun k => (params.drop npositional).contains k)

/-- The HTTP statuses `RenewalViewSet.generate_renewals` can produce. -/
inductive HttpStatus where
  | ok200
  | badRequest400
  | notFound404
  | serverError500
deriving DecidableEq, Repr

/-- `RenewalViewSet.generate_renewals` (views.py lines 1997-2032):
`request.data.get('jobcard_id')` is `none` when absent, and Python's
`if not jobcard_id` also treats the falsy id 0 as missing (400); an unknown
id is 404; otherwise the handler calls
`generate_renewals_for_jobcard(jobcard, force_regenerate=...)` — one
positional argument plus the `force_regenerate` keyword — and the blanket
`except Exception` turns the resulting `TypeError` into a 500 response. -/
def generate_renewals_view (jobcard_id : Option Nat) (jobcards : List JobCard) : HttpStatus :=
  match jobcard_id with
  | none => HttpStatus.badRequest400
  | some jid =>
    if jid == 0 then HttpStatus.badRequest400
    else if (jobcards.find? (fun j => j.id == jid)).isSome then
      if pythonKwargsAccepted generate_renewals_param_names 1 ["force_regenerate"] then
        HttpStatus.ok200
      else HttpStatus.serverError500
    else HttpStatus.notFound404

/-- C10: the manual generate-renewals endpoint passes the keyword argument
`force_regenerate` to a service method whose only parameter is `jobcard`,
so Python rejects the call binding (`TypeError`) and every request naming an
existing job card gets a 500 internal-error response; the advertised
`force_regenerate` behavior is unreachable. -/
theorem C10_generate_endpoint_always_500 (jobcard_id : Nat) (jobcards : List JobCard)
    (hid : jobcard_id ≠ 0)
    (hexists : (jobcards.find? (fun j => j.id == jobcard_id)).isSome = true) :
    pythonKwargsAccepted generate_renewals_param_names 1 ["force_regenerate"] = false ∧
    generate_renewals_view (some jobcard_id) jobcards = HttpStatus.serverError500 := by
  constructor
  · decide
  · unfold generate_renewals_view
    simp [hid, hexists]
    decide

/-- Witness for C10: requesting generation for the existing job card id 4
yields the 500 response. -/
theorem C10_generate_endpoint_always_500_witness :
    generate_renewals_view (some 4) [societyJob3] = HttpStatus.serverError500 :=
  (C10_generate_endpoint_always_500 4 [societyJob3] (by decide) (by decide)).2

end PestControl
